import Mathlib

/-!
Verification development for the bebabeba entity-store services.

This file gives a shallow embedding of the vehicle service's persistence
layer (services/vehicle/internal/store/store.go, types.go,
services/vehicle/internal/service/service.go) and of the driver status
machine (services/staff/internal/types), and proves or refutes the frozen
specification claims about them.

Modelling conventions:
  - Go machine integers are modelled as Lean Int or Nat (no overflow is
    relevant at the sizes exercised here).
  - Go byte strings are modelled as List Nat of byte values where the code
    manipulates bytes (time text, base64), and as Lean String where the code
    compares whole strings (status names, filters, ids).
  - The MySQL table is modelled as a list of rows; queries are filters,
    sorts and takes over that list, mirroring the WHERE / ORDER BY / LIMIT
    clauses of the SQL text in store.go.
  - External vehicle ids (uuid.UUID) are modelled as an opaque type; the
    wire-format parse uuid.FromString belongs to the transport layer and is
    outside the model, so service operations receive the parsed id.
  - Wall-clock reads (time.Now()) are passed in as explicit arguments.
-/

namespace Bebabeba

/-- Vehicle status enum, from proto genproto.VehicleStatus
(values visible in the vehicles table ENUM and in the Go constant names). -/
inductive VehicleStatus
  | STATUS_UNSPECIFIED
  | ACTIVE
  | ASSIGNED
  | MAINTENANCE
  | RETIRED
  deriving DecidableEq, Repr, Fintype

/-- Driver status enum, from proto genproto.DriverStatus. -/
inductive DriverStatus
  | STATUS_UNSPECIFIED
  | PENDING_VERIFICATION
  | ACTIVE
  | SUSPENDED
  | INACTIVE
  deriving DecidableEq, Repr, Fintype

/-- Fuel type enum, from proto genproto.FuelType. -/
inductive FuelType
  | FUEL_UNSPECIFIED
  | PETROL
  | DIESEL
  | ELECTRIC
  | HYBRID
  deriving DecidableEq, Repr

/-- genproto.VehicleStatus.String: the proto value name. -/
def VehicleStatus.str : VehicleStatus → String
  | .STATUS_UNSPECIFIED => "STATUS_UNSPECIFIED"
  | .ACTIVE => "ACTIVE"
  | .ASSIGNED => "ASSIGNED"
  | .MAINTENANCE => "MAINTENANCE"
  | .RETIRED => "RETIRED"

/-- genproto.VehicleStatus_value: the proto name-to-value map used by
populateVehicle when scanning the status column. -/
def VehicleStatus.ofString (s : String) : Option VehicleStatus :=
  if s = "STATUS_UNSPECIFIED" then some .STATUS_UNSPECIFIED
  else if s = "ACTIVE" then some .ACTIVE
  else if s = "ASSIGNED" then some .ASSIGNED
  else if s = "MAINTENANCE" then some .MAINTENANCE
  else if s = "RETIRED" then some .RETIRED
  else none

/-- genproto.FuelType.String. -/
def FuelType.str : FuelType → String
  | .FUEL_UNSPECIFIED => "FUEL_UNSPECIFIED"
  | .PETROL => "PETROL"
  | .DIESEL => "DIESEL"
  | .ELECTRIC => "ELECTRIC"
  | .HYBRID => "HYBRID"

/-- genproto.FuelType_value map used when scanning the fuel_type column. -/
def FuelType.ofString (s : String) : Option FuelType :=
  if s = "FUEL_UNSPECIFIED" then some .FUEL_UNSPECIFIED
  else if s = "PETROL" then some .PETROL
  else if s = "DIESEL" then some .DIESEL
  else if s = "ELECTRIC" then some .ELECTRIC
  else if s = "HYBRID" then some .HYBRID
  else none

/-- ValidStatusTransitions map from services/vehicle/internal/types/types.go.
A key absent from the Go map is modelled as none. -/
def ValidStatusTransitions : VehicleStatus → Option (List VehicleStatus)
  | .ACTIVE => some [.ASSIGNED, .MAINTENANCE, .RETIRED]
  | .ASSIGNED => some [.ACTIVE, .MAINTENANCE]
  | .MAINTENANCE => some [.ACTIVE, .RETIRED]
  | .RETIRED => some []
  | .STATUS_UNSPECIFIED => none

/-- IsValidStatusTransition from services/vehicle/internal/types/types.go. -/
def IsValidStatusTransition (a b : VehicleStatus) : Bool :=
  match ValidStatusTransitions a with
  | none => false
  | some allowed => allowed.contains b

/-- ValidDriverStatusTransitions map from services/staff/internal/types. -/
def ValidDriverStatusTransitions : DriverStatus → Option (List DriverStatus)
  | .PENDING_VERIFICATION => some [.ACTIVE, .INACTIVE]
  | .ACTIVE => some [.SUSPENDED, .INACTIVE]
  | .SUSPENDED => some [.ACTIVE, .INACTIVE]
  | .INACTIVE => some [.ACTIVE, .PENDING_VERIFICATION]
  | .STATUS_UNSPECIFIED => none

/-- IsValidDriverStatusTransition from services/staff/internal/types. -/
def IsValidDriverStatusTransition (a b : DriverStatus) : Bool :=
  match ValidDriverStatusTransitions a with
  | none => false
  | some allowed => allowed.contains b

/-- The declared driver edge list of the specification's transition table. -/
def declaredDriverEdges : List (DriverStatus × DriverStatus) :=
  [(.PENDING_VERIFICATION, .ACTIVE), (.PENDING_VERIFICATION, .INACTIVE),
   (.ACTIVE, .SUSPENDED), (.ACTIVE, .INACTIVE),
   (.SUSPENDED, .ACTIVE), (.SUSPENDED, .INACTIVE),
   (.INACTIVE, .ACTIVE), (.INACTIVE, .PENDING_VERIFICATION)]

/-- The declared vehicle edge list of the specification's transition table. -/
def declaredVehicleEdges : List (VehicleStatus × VehicleStatus) :=
  [(.ACTIVE, .ASSIGNED), (.ACTIVE, .MAINTENANCE), (.ACTIVE, .RETIRED),
   (.ASSIGNED, .ACTIVE), (.ASSIGNED, .MAINTENANCE),
   (.MAINTENANCE, .ACTIVE), (.MAINTENANCE, .RETIRED)]

/-! Timestamp text model.

Page tokens are base64(urlsafe) encodings of the text form of a Go time.Time:
MarshalText emits the RFC3339 format with nanoseconds and UnmarshalText
parses it back (time/format_rfc3339.go). Timestamps are modelled as calendar
records; the text form is a list of byte values. -/

/-- A Go time.Time as it appears in its RFC3339 text form: calendar fields
plus a UTC offset in minutes (offset 0 is printed as the letter Z). -/
structure GoTime where
  year : Nat
  month : Nat
  day : Nat
  hour : Nat
  minute : Nat
  second : Nat
  nanos : Nat
  offMin : Int
  deriving DecidableEq, Repr

/-- Leap year rule (Gregorian), as in Go time.isLeap. -/
def isLeap (y : Nat) : Bool :=
  y % 4 = 0 && (y % 100 != 0 || y % 400 = 0)

/-- Days in a month, as in Go time.daysIn. -/
def daysIn (y m : Nat) : Nat :=
  if m = 2 then (if isLeap y then 29 else 28)
  else if m = 4 ∨ m = 6 ∨ m = 9 ∨ m = 11 then 30
  else 31

/-- Validity of a GoTime: exactly the ranges Go's RFC3339 parser accepts and
its marshaller can emit (year at most four digits, calendar ranges, offset
below twenty-four hours in magnitude). -/
def GoTime.Valid (t : GoTime) : Prop :=
  t.year ≤ 9999 ∧ 1 ≤ t.month ∧ t.month ≤ 12 ∧ 1 ≤ t.day ∧
  t.day ≤ daysIn t.year t.month ∧ t.hour ≤ 23 ∧ t.minute ≤ 59 ∧
  t.second ≤ 59 ∧ t.nanos < 1000000000 ∧ t.offMin.natAbs < 1440

instance (t : GoTime) : Decidable t.Valid := by
  unfold GoTime.Valid; infer_instance

/-- The zero Go time.Time (year 1, January 1, midnight UTC); time.Time.IsZero
reports exactly this value. -/
def GoTime.isZero (t : GoTime) : Bool :=
  t = { year := 1, month := 1, day := 1, hour := 0, minute := 0,
        second := 0, nanos := 0, offMin := 0 }

/-- A chronological sort key for same-zone wall-clock times: strictly
monotone on valid calendar fields. Models the ordering MySQL applies to the
DATETIME created_at column. -/
def GoTime.key (t : GoTime) : Nat :=
  ((((((t.year * 13 + t.month) * 32 + t.day) * 24 + t.hour) * 60 +
      t.minute) * 60 + t.second)) * 1000000000 + t.nanos

/-- Byte of the decimal digit d (ASCII). -/
def digitB (d : Nat) : Nat := 48 + d

/-- Is b an ASCII digit byte. -/
def isDigitB (b : Nat) : Bool := 48 ≤ b && b ≤ 57

/-- Fixed-width decimal digits of n, most significant first, as bytes. -/
def padDigits : Nat → Nat → List Nat
  | 0, _ => []
  | w + 1, n => digitB (n / 10 ^ w) :: padDigits w (n % 10 ^ w)

/-- Decimal value of a digit-byte list, most significant first. -/
def digitsVal (bs : List Nat) : Nat :=
  bs.foldl (fun a b => a * 10 + (b - 48)) 0

/-- Drop trailing zero-digit bytes (Go trims trailing zeros when printing
fractional seconds). -/
def trimZeroB : List Nat → List Nat
  | [] => []
  | d :: ds =>
    match trimZeroB ds with
    | [] => if d = 48 then [] else [d]
    | r => d :: r

/-- Fractional-second bytes of the RFC3339Nano form: empty when nanos is
zero, otherwise a dot followed by the nine nano digits with trailing zeros
trimmed. -/
def fracBytes (nanos : Nat) : List Nat :=
  if nanos = 0 then [] else 46 :: trimZeroB (padDigits 9 nanos)

/-- Offset suffix bytes: Z for offset zero, otherwise a sign, two hour
digits, a colon and two minute digits. -/
def offsetBytes (offMin : Int) : List Nat :=
  if offMin = 0 then [90]
  else
    (if offMin < 0 then 45 else 43) ::
      (padDigits 2 (offMin.natAbs / 60) ++ 58 :: padDigits 2 (offMin.natAbs % 60))

/-- Go time.Time.MarshalText: the RFC3339 text with nanoseconds, as bytes;
fails when the year does not fit in four digits. -/
def goTimeMarshalText (t : GoTime) : Option (List Nat) :=
  if t.year ≥ 10000 then none
  else some
    (padDigits 4 t.year ++ 45 :: padDigits 2 t.month ++ 45 :: padDigits 2 t.day ++
     84 :: padDigits 2 t.hour ++ 58 :: padDigits 2 t.minute ++ 58 :: padDigits 2 t.second ++
     fracBytes t.nanos ++ offsetBytes t.offMin)

/-- Read exactly w digit bytes into the accumulator. -/
def readFixedAux : Nat → Nat → List Nat → Option (Nat × List Nat)
  | 0, acc, bs => some (acc, bs)
  | w + 1, acc, bs =>
    match bs with
    | [] => none
    | b :: rest =>
      if isDigitB b then readFixedAux w (acc * 10 + (b - 48)) rest else none

/-- Read a fixed-width decimal number. -/
def readFixed (w : Nat) (bs : List Nat) : Option (Nat × List Nat) :=
  readFixedAux w 0 bs

/-- Require byte c next. -/
def expectB (c : Nat) : List Nat → Option (List Nat)
  | [] => none
  | b :: rest => if b = c then some rest else none

/-- Optional fractional seconds, as in Go parseRFC3339: a dot followed by at
least one digit consumes the whole digit run; the first nine digits carry
nanosecond weight and further digits are truncated. Absent fraction means
zero nanoseconds and no bytes consumed. -/
def readFrac (bs : List Nat) : Nat × List Nat :=
  match bs with
  | b :: c :: rest =>
    if b = 46 ∧ isDigitB c then
      let ds := (c :: rest).takeWhile isDigitB
      (digitsVal (ds.take 9) * 10 ^ (9 - (ds.take 9).length),
        (c :: rest).dropWhile isDigitB)
    else (0, bs)
  | _ => (0, bs)

/-- The offset tail, as in Go parseRFC3339: the single letter Z (or z), or
exactly a sign, two hour digits at most 23, a colon, and two minute digits
at most 59, ending the input. -/
def readOffset (bs : List Nat) : Option Int :=
  if bs = [90] ∨ bs = [122] then some 0
  else
    match bs with
    | [s, h1, h2, c, m1, m2] =>
      if (s = 43 ∨ s = 45) ∧ c = 58 ∧ isDigitB h1 ∧ isDigitB h2 ∧
          isDigitB m1 ∧ isDigitB m2 then
        let hh := (h1 - 48) * 10 + (h2 - 48)
        let mm := (m1 - 48) * 10 + (m2 - 48)
        if hh ≤ 23 ∧ mm ≤ 59 then
          some (if s = 45 then -(((hh * 60 + mm : Nat)) : Int) else ((hh * 60 + mm : Nat) : Int))
        else none
      else none
    | _ => none

/-- Go time.Time.UnmarshalText (the strict RFC3339 parser of
time/format_rfc3339.go): fixed-position date and clock digits with their
separators, optional fraction, offset tail, and the calendar range checks. -/
def goTimeUnmarshalText (bs : List Nat) : Option GoTime :=
  match readFixed 4 bs with
  | none => none
  | some (y, r1) =>
    match expectB 45 r1 with
    | none => none
    | some r2 =>
      match readFixed 2 r2 with
      | none => none
      | some (mo, r3) =>
        match expectB 45 r3 with
        | none => none
        | some r4 =>
          match readFixed 2 r4 with
          | none => none
          | some (d, r5) =>
            match expectB 84 r5 with
            | none => none
            | some r6 =>
              match readFixed 2 r6 with
              | none => none
              | some (h, r7) =>
                match expectB 58 r7 with
                | none => none
                | some r8 =>
                  match readFixed 2 r8 with
                  | none => none
                  | some (mi, r9) =>
                    match expectB 58 r9 with
                    | none => none
                    | some r10 =>
                      match readFixed 2 r10 with
                      | none => none
                      | some (sec, r11) =>
                        let fr := readFrac r11
                        match readOffset fr.2 with
                        | none => none
                        | some off =>
                          if 1 ≤ mo ∧ mo ≤ 12 ∧ 1 ≤ d ∧ d ≤ daysIn y mo ∧
                              h ≤ 23 ∧ mi ≤ 59 ∧ sec ≤ 59 then
                            some ⟨y, mo, d, h, mi, sec, fr.1, off⟩
                          else none

/-! Base64 url-safe encoding (Go encoding/base64 URLEncoding, padded),
used for page tokens. -/

/-- Alphabet byte of a six-bit value for the url-safe alphabet. -/
def b64Byte (n : Nat) : Nat :=
  if n < 26 then 65 + n
  else if n < 52 then 97 + (n - 26)
  else if n < 62 then 48 + (n - 52)
  else if n = 62 then 45
  else 95

/-- Alphabet character of a six-bit value. -/
def b64Char (n : Nat) : Char := Char.ofNat (b64Byte n)

/-- Inverse alphabet lookup, none outside the url-safe alphabet. -/
def b64InvChar (c : Char) : Option Nat :=
  let b := c.toNat
  if 65 ≤ b ∧ b ≤ 90 then some (b - 65)
  else if 97 ≤ b ∧ b ≤ 122 then some (b - 97 + 26)
  else if 48 ≤ b ∧ b ≤ 57 then some (b - 48 + 52)
  else if b = 45 then some 62
  else if b = 95 then some 63
  else none

/-- base64.URLEncoding.EncodeToString on a byte list: three bytes become
four alphabet characters; a tail of two or one byte is padded with one or
two equal signs. -/
def b64EncodeBytes : List Nat → List Char
  | b1 :: b2 :: b3 :: rest =>
    let v := b1 * 65536 + b2 * 256 + b3
    b64Char (v / 262144) :: b64Char (v / 4096 % 64) :: b64Char (v / 64 % 64) ::
      b64Char (v % 64) :: b64EncodeBytes rest
  | [b1, b2] =>
    let v := b1 * 1024 + b2 * 4
    [b64Char (v / 4096), b64Char (v / 64 % 64), b64Char (v % 64), '=']
  | [b1] =>
    let v := b1 * 16
    [b64Char (v / 64), b64Char (v % 64), '=', '=']
  | [] => []

/-- base64.URLEncoding.DecodeString: four characters at a time; equal signs
may appear only as the final one or two characters of the input; any
character outside the alphabet fails. -/
def b64DecodeChars : List Char → Option (List Nat)
  | c1 :: c2 :: c3 :: c4 :: rest =>
    (match b64InvChar c1, b64InvChar c2 with
    | some s1, some s2 =>
      if c3 = '=' then
        if c4 = '=' ∧ rest = [] then some [s1 * 4 + s2 / 16] else none
      else
        match b64InvChar c3 with
        | some s3 =>
          if c4 = '=' then
            if rest = [] then some [s1 * 4 + s2 / 16, s2 % 16 * 16 + s3 / 4]
            else none
          else
            match b64InvChar c4 with
            | some s4 =>
              (b64DecodeChars rest).map
                (fun tail => (s1 * 4 + s2 / 16) :: (s2 % 16 * 16 + s3 / 4) ::
                  (s3 % 4 * 64 + s4) :: tail)
            | none => none
        | none => none
    | _, _ => none)
  | [] => some []
  | _ => none

/-- Encode bytes to a Go token string. -/
def b64EncodeToString (bs : List Nat) : String :=
  String.mk (b64EncodeBytes bs)

/-- Decode a Go token string to bytes. -/
def b64DecodeString (s : String) : Option (List Nat) :=
  b64DecodeChars s.data

/-- The page-token encoder as composed in ListVehicles:
lastCreatedAt.MarshalText piped through base64.URLEncoding.EncodeToString. -/
def encodePageToken (t : GoTime) : Option String :=
  (goTimeMarshalText t).map b64EncodeToString

/-- The page-token decoder as composed in ListVehicles:
base64.URLEncoding.DecodeString piped through time.Time.UnmarshalText. -/
def decodePageToken (s : String) : Option GoTime :=
  (b64DecodeString s).bind goTimeUnmarshalText

/-! The vehicle store (services/vehicle/internal/store/store.go) over an
explicit table state. -/

/-- External vehicle identifier (uuid.UUID), modelled as an opaque value. -/
abbrev UUID := Nat

/-- Error values crossing the store boundary: the sentinel errors of
services/vehicle/internal/types/types.go, plus Other for the wrapped
fmt.Errorf errors that carry no sentinel. -/
inductive StoreErr
  | VehicleNotFound
  | DuplicateEntry
  | VehicleTypeNotFound
  | Other (msg : String)
  deriving DecidableEq, Repr

/-- gRPC status codes used by the vehicle service layer. -/
inductive Code
  | OK
  | InvalidArgument
  | NotFound
  | AlreadyExists
  | FailedPrecondition
  | Internal
  deriving DecidableEq, Repr

/-- A gRPC status error produced by the service layer. -/
structure GrpcErr where
  code : Code
  msg : String
  deriving DecidableEq, Repr

deriving instance DecidableEq for Except

/-- A calendar date (DATE column). -/
structure GoDate where
  year : Nat
  month : Nat
  day : Nat
  deriving DecidableEq, Repr

/-- time.Parse with layout 2006-01-02: four year digits, dash, two month
digits, dash, two day digits, nothing after, with calendar range checks. -/
def parseISODate (s : String) : Option GoDate :=
  let bs := s.data.map Char.toNat
  match readFixed 4 bs with
  | none => none
  | some (y, r1) =>
    match expectB 45 r1 with
    | none => none
    | some r2 =>
      match readFixed 2 r2 with
      | none => none
      | some (mo, r3) =>
        match expectB 45 r3 with
        | none => none
        | some r4 =>
          match readFixed 2 r4 with
          | none => none
          | some (d, r5) =>
            if r5 = [] ∧ 1 ≤ mo ∧ mo ≤ 12 ∧ 1 ≤ d ∧ d ≤ daysIn y mo then
              some ⟨y, mo, d⟩
            else none

/-- time.Time.Format with layout 2006-01-02 applied to a date value. -/
def formatISODate (d : GoDate) : String :=
  String.mk ((padDigits 4 d.year ++ 45 :: padDigits 2 d.month ++
    45 :: padDigits 2 d.day).map Char.ofNat)

/-- A row of the vehicles table (create-vehicle.up.sql): enum columns hold
their string form, optional columns are NULL-able. -/
structure VehicleRow where
  internal_id : Nat
  external_id : UUID
  vehicle_type_id : String
  license_plate : String
  make : String
  model : String
  year : Int
  color : String
  seating_capacity : Int
  fuel_type : String
  engine_number : Option String
  chassis_number : Option String
  registration_date : Option GoDate
  insurance_expiry : Option GoDate
  status : String
  created_at : GoTime
  updated_at : GoTime
  deriving DecidableEq, Repr

/-- A row of the vehicle_types table. -/
structure VehicleTypeRow where
  id : String
  name : String
  description : String
  created_at : GoTime
  deriving DecidableEq, Repr

/-- The relational state behind the vehicle store. -/
structure StoreState where
  vehicle_types : List VehicleTypeRow
  vehicles : List VehicleRow
  deriving DecidableEq, Repr

/-- genproto.Vehicle as scanned back from a query row (scanVehicleFromRow /
populateVehicle): enum columns decoded, proto string fields empty when the
column is NULL. -/
structure ProtoVehicle where
  id : UUID
  vehicle_type_id : String
  vehicle_type_name : String
  license_plate : String
  make : String
  model : String
  year : Int
  color : String
  seating_capacity : Int
  fuel_type : FuelType
  engine_number : String
  chassis_number : String
  registration_date : Option GoDate
  insurance_expiry : Option GoDate
  status : VehicleStatus
  created_at : GoTime
  updated_at : GoTime
  deriving DecidableEq, Repr

/-- populateVehicle: decode the status and fuel enum strings (failing on a
value outside the proto maps) and carry the remaining columns across. -/
def scanVehicleRow (typeName : String) (r : VehicleRow) : Option ProtoVehicle :=
  match VehicleStatus.ofString r.status with
  | none => none
  | some st =>
    match FuelType.ofString r.fuel_type with
    | none => none
    | some ft =>
      some
        { id := r.external_id
          vehicle_type_id := r.vehicle_type_id
          vehicle_type_name := typeName
          license_plate := r.license_plate
          make := r.make
          model := r.model
          year := r.year
          color := r.color
          seating_capacity := r.seating_capacity
          fuel_type := ft
          engine_number := r.engine_number.getD ""
          chassis_number := r.chassis_number.getD ""
          registration_date := r.registration_date
          insurance_expiry := r.insurance_expiry
          status := st
          created_at := r.created_at
          updated_at := r.updated_at }

/-- Name of a vehicle type id in the vehicle_types table. -/
def lookupTypeName (ts : List VehicleTypeRow) (idStr : String) : Option String :=
  (ts.find? (fun t => t.id = idStr)).map (fun t => t.name)

/-- The INNER JOIN of vehicles with vehicle_types: each vehicle row paired
with its type name; rows whose type id has no match are dropped. -/
def joinedRows (st : StoreState) : List (String × VehicleRow) :=
  st.vehicles.filterMap
    (fun r => (lookupTypeName st.vehicle_types r.vehicle_type_id).map (fun n => (n, r)))

/-- store.GetVehicleByID: select the joined row with this external id
(LIMIT 1 takes the first), scan it. -/
def storeGetVehicleByID (st : StoreState) (externalID : UUID) : Except StoreErr ProtoVehicle :=
  match (joinedRows st).find? (fun p => p.2.external_id = externalID) with
  | none => .error .VehicleNotFound
  | some (n, r) =>
    match scanVehicleRow n r with
    | none => .error (.Other "failed to get vehicle by ID")
    | some pv => .ok pv

/-- store.GetVehicleByLicensePlate. -/
def storeGetVehicleByLicensePlate (st : StoreState) (plate : String) : Except StoreErr ProtoVehicle :=
  match (joinedRows st).find? (fun p => p.2.license_plate = plate) with
  | none => .error .VehicleNotFound
  | some (n, r) =>
    match scanVehicleRow n r with
    | none => .error (.Other "failed to get vehicle by license plate")
    | some pv => .ok pv

/-- store.GetVehicleTypeByID. -/
def storeGetVehicleTypeByID (st : StoreState) (typeID : String) : Except StoreErr VehicleTypeRow :=
  match st.vehicle_types.find? (fun t => t.id = typeID) with
  | none => .error .VehicleTypeNotFound
  | some t => .ok t

/-- Does the character list start with the given pattern. -/
def leadMatch : List Char → List Char → Bool
  | [], _ => true
  | _ :: _, [] => false
  | a :: as, b :: bs => a == b && leadMatch as bs

/-- Does the character list contain the pattern anywhere. -/
def subMatch (sub : List Char) : List Char → Bool
  | [] => leadMatch sub []
  | b :: bs => leadMatch sub (b :: bs) || subMatch sub bs

/-- SQL LIKE with the pattern percent-f-percent: substring containment. -/
def strContains (s sub : String) : Bool := subMatch sub.data s.data

/-- The WHERE clause of listVehiclesQuery: each optional filter degenerates
to an always-true clause when unset; the cursor clause keeps rows strictly
newer than the cursor time. -/
def rowMatches (statusStr typeStr : String) (makeF : Option String)
    (cursor : Option GoTime) (r : VehicleRow) : Bool :=
  (statusStr == "" || r.status == statusStr) &&
  (typeStr == "" || r.vehicle_type_id == typeStr) &&
  (match makeF with | none => true | some f => strContains r.make f) &&
  (match cursor with | none => true | some c => c.key < r.created_at.key)

/-- Insert a row into a list sorted by descending created_at. -/
def insertDesc (r : VehicleRow) : List VehicleRow → List VehicleRow
  | [] => [r]
  | x :: xs =>
    if x.created_at.key ≤ r.created_at.key then r :: x :: xs
    else x :: insertDesc r xs

/-- ORDER BY created_at DESC (ties in arbitrary order). -/
def sortDesc (l : List VehicleRow) : List VehicleRow := l.foldr insertDesc []

/-- listVehiclesQuery: join, filter, order descending by created_at, LIMIT. -/
def queryRows (st : StoreState) (statusStr typeStr : String) (makeF : Option String)
    (cursor : Option GoTime) (limit : Nat) : List (String × VehicleRow) :=
  ((sortDesc (st.vehicles.filter (rowMatches statusStr typeStr makeF cursor))).filterMap
    (fun r => (lookupTypeName st.vehicle_types r.vehicle_type_id).map (fun n => (n, r)))).take
    limit

/-- Scan every returned row (the rows.Next loop), failing if any row scan
fails. -/
def scanRows : List (String × VehicleRow) → Option (List ProtoVehicle)
  | [] => some []
  | (n, r) :: rest =>
    match scanVehicleRow n r with
    | none => none
    | some pv => (scanRows rest).map (fun tail => pv :: tail)

/-- Parse the page token as ListVehicles does: an empty token is the first
page; otherwise base64-decode it and unmarshal the bytes as a time. -/
def decodeCursor (token : String) : Except StoreErr (Option GoTime) :=
  if token = "" then .ok none
  else
    match b64DecodeString token with
    | none => .error (.Other "invalid page token")
    | some bs =>
      match goTimeUnmarshalText bs with
      | none => .error (.Other "invalid page token format")
      | some t => .ok (some t)

/-- The tail of ListVehicles: if more than pageSize rows were scanned, drop
down to pageSize rows and emit a token encoding lastCreatedAt, which the
scan loop left at the created_at of the last row scanned; otherwise the
token is empty. -/
def assemblePage (pageSize : Nat) (vehicles : List ProtoVehicle) :
    Except StoreErr (List ProtoVehicle × String) :=
  if pageSize < vehicles.length then
    match vehicles.getLast? with
    | none => .ok (vehicles, "")
    | some last =>
      match goTimeMarshalText last.created_at with
      | none => .error (.Other "failed to create next page token")
      | some bs => .ok (vehicles.take pageSize, b64EncodeToString bs)
  else .ok (vehicles, "")

/-- ListVehiclesParams from services/vehicle/internal/types/types.go. -/
structure ListVehiclesParams where
  PageSize : Int
  PageToken : String
  StatusFilter : Option VehicleStatus
  VehicleTypeFilter : Option String
  MakeFilter : Option String

/-- store.ListVehicles: clamp the page size, parse the token (a zero cursor
time degenerates to no cursor clause), run the filtered query for
pageSize plus one rows, scan them, and assemble the page and next token. -/
def storeListVehicles (st : StoreState) (params : ListVehiclesParams) :
    Except StoreErr (List ProtoVehicle × String) :=
  let pageSize : Int :=
    if params.PageSize ≤ 0 ∨ params.PageSize > 100 then 50 else params.PageSize
  match decodeCursor params.PageToken with
  | .error e => .error e
  | .ok ct =>
    let cursor : Option GoTime :=
      match ct with
      | none => none
      | some t => if t.isZero then none else some t
    let statusStr :=
      match params.StatusFilter with
      | none => ""
      | some f => f.str
    let typeStr := params.VehicleTypeFilter.getD ""
    let rows := queryRows st statusStr typeStr params.MakeFilter cursor (pageSize.toNat + 1)
    match scanRows rows with
    | none => .error (.Other "failed to scan vehicle")
    | some vs => assemblePage pageSize.toNat vs

/-- VehicleData from services/vehicle/internal/types/types.go. -/
structure VehicleData where
  VehicleTypeID : String
  LicensePlate : String
  Make : String
  Model : String
  Year : Int
  Color : String
  SeatingCapacity : Int
  FuelType : FuelType
  EngineNumber : Option String
  ChassisNumber : Option String
  RegistrationDate : Option String
  InsuranceExpiry : Option String

/-- store.CreateVehicle: insert one row with status ACTIVE and both
timestamps now; a MySQL duplicate-key error (number 1062, from the unique
license plate, external id or primary key) maps to ErrDuplicateEntry; a
foreign-key failure on the vehicle type surfaces as a wrapped error. Date
strings that fail to parse are stored as NULL. -/
def storeCreateVehicle (st : StoreState) (internalID : Nat) (externalID : UUID)
    (v : VehicleData) (now : GoTime) : StoreState × Option StoreErr :=
  let row : VehicleRow :=
    { internal_id := internalID
      external_id := externalID
      vehicle_type_id := v.VehicleTypeID
      license_plate := v.LicensePlate
      make := v.Make
      model := v.Model
      year := v.Year
      color := v.Color
      seating_capacity := v.SeatingCapacity
      fuel_type := v.FuelType.str
      engine_number := v.EngineNumber
      chassis_number := v.ChassisNumber
      registration_date := v.RegistrationDate.bind parseISODate
      insurance_expiry := v.InsuranceExpiry.bind parseISODate
      status := VehicleStatus.ACTIVE.str
      created_at := now
      updated_at := now }
  if st.vehicles.any (fun r =>
      r.license_plate = v.LicensePlate ∨ r.external_id = externalID ∨
      r.internal_id = internalID) then
    (st, some .DuplicateEntry)
  else if (st.vehicle_types.find? (fun t => t.id = v.VehicleTypeID)).isNone then
    (st, some (.Other "failed to insert vehicle"))
  else ({ st with vehicles := st.vehicles ++ [row] }, none)

/-- VehicleUpdateFields from services/vehicle/internal/types/types.go. -/
structure VehicleUpdateFields where
  VehicleTypeID : Option String
  LicensePlate : Option String
  Make : Option String
  Model : Option String
  Year : Option Int
  Color : Option String
  SeatingCapacity : Option Int
  FuelType : Option FuelType
  EngineNumber : Option String
  ChassisNumber : Option String
  RegistrationDate : Option String
  InsuranceExpiry : Option String

/-- One column's CASE WHEN flag THEN bound value ELSE column END action:
some v means the flag is set and v is the bound value; none leaves the
stored column value. -/
structure RowPatch where
  vehicle_type_id : Option String
  license_plate : Option String
  make : Option String
  model : Option String
  year : Option Int
  color : Option String
  seating_capacity : Option Int
  fuel_type : Option String
  engine_number : Option (Option String)
  chassis_number : Option (Option String)
  registration_date : Option (Option GoDate)
  insurance_expiry : Option (Option GoDate)
  deriving DecidableEq, Repr

/-- The per-column update flag of store.UpdateVehicle: with a mask, whether
the path is named in it (unknown paths set nothing); with no mask, whether
the corresponding update pointer is non-nil. -/
def maskFlag (updateMask : Option (List String)) (path : String) (ptrSet : Bool) : Bool :=
  match updateMask with
  | some paths => paths.contains path
  | none => ptrSet

/-- The flag and bound-value computation of store.UpdateVehicle: where the
flag is set but the pointer is nil, the bound value is the Go zero value
(empty string, zero, or NULL); date strings that fail to parse bind NULL. -/
def computePatch (updates : VehicleUpdateFields) (updateMask : Option (List String)) : RowPatch :=
  { vehicle_type_id :=
      if maskFlag updateMask "vehicle_type_id" updates.VehicleTypeID.isSome then
        some (updates.VehicleTypeID.getD "") else none
    license_plate :=
      if maskFlag updateMask "license_plate" updates.LicensePlate.isSome then
        some (updates.LicensePlate.getD "") else none
    make :=
      if maskFlag updateMask "make" updates.Make.isSome then
        some (updates.Make.getD "") else none
    model :=
      if maskFlag updateMask "model" updates.Model.isSome then
        some (updates.Model.getD "") else none
    year :=
      if maskFlag updateMask "year" updates.Year.isSome then
        some (updates.Year.getD 0) else none
    color :=
      if maskFlag updateMask "color" updates.Color.isSome then
        some (updates.Color.getD "") else none
    seating_capacity :=
      if maskFlag updateMask "seating_capacity" updates.SeatingCapacity.isSome then
        some (updates.SeatingCapacity.getD 0) else none
    fuel_type :=
      if maskFlag updateMask "fuel_type" updates.FuelType.isSome then
        some ((updates.FuelType.map FuelType.str).getD "") else none
    engine_number :=
      if maskFlag updateMask "engine_number" updates.EngineNumber.isSome then
        some updates.EngineNumber else none
    chassis_number :=
      if maskFlag updateMask "chassis_number" updates.ChassisNumber.isSome then
        some updates.ChassisNumber else none
    registration_date :=
      if maskFlag updateMask "registration_date" updates.RegistrationDate.isSome then
        some (updates.RegistrationDate.bind parseISODate) else none
    insurance_expiry :=
      if maskFlag updateMask "insurance_expiry" updates.InsuranceExpiry.isSome then
        some (updates.InsuranceExpiry.bind parseISODate) else none }

/-- The SET clause of updateVehicleQuery applied to one row: every column
takes its patched value when flagged and keeps its stored value otherwise;
updated_at always becomes now. -/
def applyPatch (p : RowPatch) (now : GoTime) (r : VehicleRow) : VehicleRow :=
  { r with
    vehicle_type_id := p.vehicle_type_id.getD r.vehicle_type_id
    license_plate := p.license_plate.getD r.license_plate
    make := p.make.getD r.make
    model := p.model.getD r.model
    year := p.year.getD r.year
    color := p.color.getD r.color
    seating_capacity := p.seating_capacity.getD r.seating_capacity
    fuel_type := p.fuel_type.getD r.fuel_type
    engine_number := p.engine_number.getD r.engine_number
    chassis_number := p.chassis_number.getD r.chassis_number
    registration_date := p.registration_date.getD r.registration_date
    insurance_expiry := p.insurance_expiry.getD r.insurance_expiry
    updated_at := now }

/-- store.UpdateVehicle: compute the patch from the mask and update fields,
run the conditional UPDATE on the row with this external id; a duplicate
key on the new license plate maps to ErrDuplicateEntry, zero affected rows
to ErrVehicleNotFound; on success the updated vehicle is re-read. -/
def storeUpdateVehicle (st : StoreState) (externalID : UUID)
    (updates : VehicleUpdateFields) (updateMask : Option (List String))
    (now : GoTime) : StoreState × Except StoreErr ProtoVehicle :=
  let p := computePatch updates updateMask
  let affected := st.vehicles.countP (fun r => r.external_id = externalID)
  let plateDup : Bool :=
    match p.license_plate with
    | some newPlate =>
      st.vehicles.any (fun r => r.external_id ≠ externalID ∧ r.license_plate = newPlate)
    | none => false
  if affected ≠ 0 ∧ plateDup = true then
    (st, .error .DuplicateEntry)
  else if affected = 0 then (st, .error .VehicleNotFound)
  else
    let st' :=
      { st with
        vehicles := st.vehicles.map (fun r =>
          if r.external_id = externalID then applyPatch p now r else r) }
    match storeGetVehicleByID st' externalID with
    | .error e => (st', .error e)
    | .ok pv => (st', .ok pv)

/-- The row effect of deleteVehicleQuery: set status RETIRED and updated_at
now on a row matching the WHERE clause (this external id, not already
RETIRED); other rows are untouched. -/
def retireRow (externalID : UUID) (now : GoTime) (r : VehicleRow) : VehicleRow :=
  if r.external_id = externalID ∧ r.status ≠ "RETIRED" then
    { r with status := "RETIRED", updated_at := now }
  else r

/-- store.DeleteVehicle: one conditional UPDATE setting status RETIRED and
updated_at now on the row with this external id whose status is not already
RETIRED; zero affected rows is ErrVehicleNotFound. -/
def storeDeleteVehicle (st : StoreState) (externalID : UUID) (now : GoTime) :
    StoreState × Option StoreErr :=
  let affected := st.vehicles.countP
    (fun r => r.external_id = externalID ∧ r.status ≠ "RETIRED")
  if affected = 0 then (st, some .VehicleNotFound)
  else ({ st with vehicles := st.vehicles.map (retireRow externalID now) }, none)

/-! The vehicle service layer (services/vehicle/internal/service/service.go).
Input validation and wire-format parsing (validator package, uuid parsing,
proto marshalling) are external collaborators; service operations here
receive validated values, and wall-clock reads and generated identifiers
are explicit arguments. -/

/-- genproto.ListVehiclesRequest. -/
structure ListVehiclesRequest where
  page_size : Int
  page_token : String
  status_filter : Option VehicleStatus
  vehicle_type_filter : Option String
  make_filter : Option String

/-- genproto.ListVehiclesResponse. -/
structure ListVehiclesResponse where
  vehicles : List ProtoVehicle
  next_page_token : String
  total_count : Int
  deriving DecidableEq, Repr

/-- service.ListVehicles: clamp the page size into (0, 100], pass the status
filter pointer straight through and the type and make filters only when
non-empty, call the store, and map any store error to an Internal status. -/
def serviceListVehicles (st : StoreState) (req : ListVehiclesRequest) :
    Except GrpcErr ListVehiclesResponse :=
  let pageSize : Int :=
    if req.page_size ≤ 0 then 50 else if req.page_size > 100 then 100 else req.page_size
  let params : ListVehiclesParams :=
    { PageSize := pageSize
      PageToken := req.page_token
      StatusFilter := req.status_filter
      VehicleTypeFilter :=
        match req.vehicle_type_filter with
        | some s => if s ≠ "" then some s else none
        | none => none
      MakeFilter :=
        match req.make_filter with
        | some s => if s ≠ "" then some s else none
        | none => none }
  match storeListVehicles st params with
  | .error _ => .error ⟨.Internal, "failed to list vehicles"⟩
  | .ok (vs, tok) => .ok ⟨vs, tok, vs.length⟩

/-- genproto.VehicleInput (req.Vehicle of CreateVehicleRequest), already
past ValidateCreateVehicleRequest; the proto timestamp fields are carried
as the dates the service formats with layout 2006-01-02. -/
structure VehicleInput where
  vehicle_type_id : String
  license_plate : String
  make : String
  model : String
  year : Int
  color : String
  seating_capacity : Int
  fuel_type : FuelType
  engine_number : String
  chassis_number : String
  registration_date : Option GoDate
  insurance_expiry : Option GoDate

/-- The VehicleData the service prepares from a validated create request:
optional strings become pointers only when non-empty, and the proto date
fields are formatted with layout 2006-01-02. -/
def toVehicleData (vehicle : VehicleInput) : VehicleData :=
  { VehicleTypeID := vehicle.vehicle_type_id
    LicensePlate := vehicle.license_plate
    Make := vehicle.make
    Model := vehicle.model
    Year := vehicle.year
    Color := vehicle.color
    SeatingCapacity := vehicle.seating_capacity
    FuelType := vehicle.fuel_type
    EngineNumber :=
      if vehicle.engine_number ≠ "" then some vehicle.engine_number else none
    ChassisNumber :=
      if vehicle.chassis_number ≠ "" then some vehicle.chassis_number else none
    RegistrationDate := vehicle.registration_date.map formatISODate
    InsuranceExpiry := vehicle.insurance_expiry.map formatISODate }

/-- service.CreateVehicle: verify the vehicle type, pre-check the license
plate for a friendly AlreadyExists, insert with freshly allocated ids
(passed in here), remap a store duplicate-entry to AlreadyExists, and
re-read the created vehicle. -/
def serviceCreateVehicle (st : StoreState) (vehicle : VehicleInput)
    (internalID : Nat) (externalID : UUID) (now : GoTime) :
    StoreState × Except GrpcErr ProtoVehicle :=
  match storeGetVehicleTypeByID st vehicle.vehicle_type_id with
  | .error .VehicleTypeNotFound =>
    (st, .error ⟨.InvalidArgument, "vehicle type not found"⟩)
  | .error _ => (st, .error ⟨.Internal, "failed to validate vehicle type"⟩)
  | .ok _ =>
    match storeGetVehicleByLicensePlate st vehicle.license_plate with
    | .ok _ =>
      (st, .error ⟨.AlreadyExists, "vehicle with license plate already exists"⟩)
    | .error .VehicleNotFound =>
      match storeCreateVehicle st internalID externalID (toVehicleData vehicle) now with
      | (st1, some .DuplicateEntry) =>
        (st1, .error ⟨.AlreadyExists, "vehicle with this license plate already exists"⟩)
      | (st1, some _) => (st1, .error ⟨.Internal, "failed to create vehicle"⟩)
      | (st1, none) =>
        match storeGetVehicleByID st1 externalID with
        | .error _ => (st1, .error ⟨.Internal, "failed to retrieve created vehicle"⟩)
        | .ok pv => (st1, .ok pv)
    | .error _ =>
      (st, .error ⟨.Internal, "failed to check license plate uniqueness"⟩)

/-- service.DeleteVehicle: fetch the vehicle (NotFound when absent), reject
an ASSIGNED vehicle with FailedPrecondition before any write, then run the
store soft delete, mapping its not-found to NotFound. -/
def serviceDeleteVehicle (st : StoreState) (vehicleID : UUID) (now : GoTime) :
    StoreState × Except GrpcErr Unit :=
  match storeGetVehicleByID st vehicleID with
  | .error .VehicleNotFound => (st, .error ⟨.NotFound, "vehicle not found"⟩)
  | .error _ => (st, .error ⟨.Internal, "failed to get vehicle"⟩)
  | .ok existingVehicle =>
    if existingVehicle.status = .ASSIGNED then
      (st, .error ⟨.FailedPrecondition, "cannot delete assigned vehicle. Unassign vehicle first"⟩)
    else
      match storeDeleteVehicle st vehicleID now with
      | (st1, some .VehicleNotFound) => (st1, .error ⟨.NotFound, "vehicle not found"⟩)
      | (st1, some _) => (st1, .error ⟨.Internal, "failed to delete vehicle"⟩)
      | (st1, none) => (st1, .ok ())

/-! Concrete sample data for witnesses and counterexamples. -/

/-- A UTC time s seconds past midnight, January 1 2024. -/
def sampleTime (s : Nat) : GoTime := ⟨2024, 1, 1, 0, 0, s, 0, 0⟩

/-- A sample vehicle type row. -/
def sampleTypeRow : VehicleTypeRow :=
  ⟨"1", "matatu", "shared taxi", sampleTime 0⟩

/-- A stored vehicle row with id i, created at sampleTime s. -/
def sampleVehicle (i s : Nat) : VehicleRow :=
  { internal_id := i
    external_id := i
    vehicle_type_id := "1"
    license_plate := toString i
    make := "Toyota"
    model := "Hiace"
    year := 2020
    color := "White"
    seating_capacity := 14
    fuel_type := "PETROL"
    engine_number := none
    chassis_number := none
    registration_date := none
    insurance_expiry := none
    status := "ACTIVE"
    created_at := sampleTime s
    updated_at := sampleTime s }

/-- The scanned proto form of sampleVehicle. -/
def sampleProto (i s : Nat) : ProtoVehicle :=
  { id := i
    vehicle_type_id := "1"
    vehicle_type_name := "matatu"
    license_plate := toString i
    make := "Toyota"
    model := "Hiace"
    year := 2020
    color := "White"
    seating_capacity := 14
    fuel_type := .PETROL
    engine_number := ""
    chassis_number := ""
    registration_date := none
    insurance_expiry := none
    status := .ACTIVE
    created_at := sampleTime s
    updated_at := sampleTime s }

/-- A store with one vehicle type and three vehicles created one second
apart (the page-completeness scenario of the specification). -/
def sampleStore3 : StoreState :=
  ⟨[sampleTypeRow], [sampleVehicle 1 1, sampleVehicle 2 2, sampleVehicle 3 3]⟩

/-- A store with one vehicle type and a single ACTIVE vehicle. -/
def sampleStore1 : StoreState :=
  ⟨[sampleTypeRow], [sampleVehicle 1 1]⟩

/-- The empty store. -/
def emptyStore : StoreState := ⟨[], []⟩

/-- A list request carrying only a page size and token. -/
def sampleListReq (ps : Int) (tok : String) : ListVehiclesRequest :=
  ⟨ps, tok, none, none, none⟩

/-- A validated create-request payload with the given license plate. -/
def sampleInput (plate : String) : VehicleInput :=
  { vehicle_type_id := "1"
    license_plate := plate
    make := "Mazda"
    model := "Atenza"
    year := 2018
    color := "Blue"
    seating_capacity := 14
    fuel_type := .PETROL
    engine_number := "ENG14523"
    chassis_number := ""
    registration_date := none
    insurance_expiry := none }

/-- A store whose single vehicle is currently ASSIGNED. -/
def sampleStoreAssigned : StoreState :=
  ⟨[sampleTypeRow], [{ sampleVehicle 1 1 with status := "ASSIGNED" }]⟩

/-- The scanned proto form of the ASSIGNED sample vehicle. -/
def sampleProtoAssigned : ProtoVehicle :=
  { sampleProto 1 1 with status := .ASSIGNED }

/-! Helper lemmas: fixed-width decimal blocks and digit values. -/

theorem padDigits_length (w : Nat) : ∀ n, (padDigits w n).length = w := by
  induction w with
  | zero => intro n; rfl
  | succ w ih => intro n; simp [padDigits, ih]

theorem div_pow_lt_ten {w n : Nat} (hn : n < 10 ^ (w + 1)) : n / 10 ^ w < 10 := by
  rw [Nat.div_lt_iff_lt_mul (Nat.pos_pow_of_pos w (by norm_num))]
  calc n < 10 ^ (w + 1) := hn
    _ = 10 * 10 ^ w := by ring

theorem digitB_bounds {d : Nat} (hd : d < 10) : 48 ≤ digitB d ∧ digitB d ≤ 57 := by
  unfold digitB
  omega

theorem digitB_sub48 (d : Nat) : digitB d - 48 = d := by
  unfold digitB
  omega

theorem mem_padDigits_digit {w n : Nat} (hn : n < 10 ^ w) :
    ∀ b ∈ padDigits w n, 48 ≤ b ∧ b ≤ 57 := by
  induction w generalizing n with
  | zero => simp [padDigits]
  | succ w ih =>
    intro b hb
    simp only [padDigits, List.mem_cons] at hb
    rcases hb with hb | hb
    · subst hb
      exact digitB_bounds (div_pow_lt_ten hn)
    · exact ih (Nat.mod_lt n (Nat.pos_pow_of_pos w (by norm_num))) b hb

theorem isDigitB_digitB {d : Nat} (hd : d < 10) : isDigitB (digitB d) = true := by
  simp [isDigitB, digitB]
  omega

theorem readFixedAux_pad {w n : Nat} (hn : n < 10 ^ w) :
    ∀ acc rest, readFixedAux w acc (padDigits w n ++ rest) = some (acc * 10 ^ w + n, rest) := by
  induction w generalizing n with
  | zero =>
    intro acc rest
    simp [padDigits, readFixedAux]
    omega
  | succ w ih =>
    intro acc rest
    have hd : n / 10 ^ w < 10 := div_pow_lt_ten hn
    have hmod : n % 10 ^ w < 10 ^ w := Nat.mod_lt n (Nat.pos_pow_of_pos w (by norm_num))
    simp only [padDigits, List.cons_append, readFixedAux, isDigitB_digitB hd, if_true]
    rw [ih hmod]
    congr 1
    rw [digitB_sub48]
    congr 1
    calc (acc * 10 + n / 10 ^ w) * 10 ^ w + n % 10 ^ w
        = acc * (10 ^ w * 10) + (10 ^ w * (n / 10 ^ w) + n % 10 ^ w) := by ring
      _ = acc * 10 ^ (w + 1) + n := by rw [Nat.div_add_mod]; ring

theorem readFixed_pad {w n : Nat} (hn : n < 10 ^ w) (rest : List Nat) :
    readFixed w (padDigits w n ++ rest) = some (n, rest) := by
  unfold readFixed
  rw [readFixedAux_pad hn]
  simp

theorem expectB_cons (c : Nat) (rest : List Nat) : expectB c (c :: rest) = some rest := by
  simp [expectB]

theorem digitsVal_foldl (bs : List Nat) :
    ∀ acc, bs.foldl (fun a b => a * 10 + (b - 48)) acc = acc * 10 ^ bs.length + digitsVal bs := by
  induction bs with
  | nil => intro acc; simp [digitsVal]
  | cons b bs ih =>
    intro acc
    show List.foldl _ (acc * 10 + (b - 48)) bs = _
    rw [ih]
    have hv : digitsVal (b :: bs) = (b - 48) * 10 ^ bs.length + digitsVal bs := by
      show List.foldl _ (0 * 10 + (b - 48)) bs = _
      rw [ih]
      ring
    rw [hv]
    simp [List.length_cons]
    ring

theorem digitsVal_cons (b : Nat) (bs : List Nat) :
    digitsVal (b :: bs) = (b - 48) * 10 ^ bs.length + digitsVal bs := by
  show List.foldl _ (0 * 10 + (b - 48)) bs = _
  rw [digitsVal_foldl]
  ring

theorem digitsVal_append (xs ys : List Nat) :
    digitsVal (xs ++ ys) = digitsVal xs * 10 ^ ys.length + digitsVal ys := by
  unfold digitsVal
  rw [List.foldl_append, digitsVal_foldl]
  rfl

theorem digitsVal_replicate48 (k : Nat) : digitsVal (List.replicate k 48) = 0 := by
  induction k with
  | zero => rfl
  | succ k ih => rw [List.replicate_succ, digitsVal_cons, ih]; simp

theorem digitsVal_padDigits {w n : Nat} (hn : n < 10 ^ w) :
    digitsVal (padDigits w n) = n := by
  induction w generalizing n with
  | zero =>
    simp [padDigits, digitsVal]
    omega
  | succ w ih =>
    have hd : n / 10 ^ w < 10 := div_pow_lt_ten hn
    have hmod : n % 10 ^ w < 10 ^ w := Nat.mod_lt n (Nat.pos_pow_of_pos w (by norm_num))
    rw [padDigits, digitsVal_cons, padDigits_length, ih hmod, digitB_sub48]
    calc n / 10 ^ w * 10 ^ w + n % 10 ^ w
        = 10 ^ w * (n / 10 ^ w) + n % 10 ^ w := by ring
      _ = n := Nat.div_add_mod n (10 ^ w)

theorem trimZeroB_spec (xs : List Nat) :
    ∃ k, xs = trimZeroB xs ++ List.replicate k 48 := by
  induction xs with
  | nil => exact ⟨0, rfl⟩
  | cons d ds ih =>
    obtain ⟨k, hk⟩ := ih
    cases h : trimZeroB ds with
    | nil =>
      rw [h] at hk
      simp only [List.nil_append] at hk
      by_cases hd : d = 48
      · refine ⟨k + 1, ?_⟩
        simp [trimZeroB, h, hd, List.replicate_succ]
        exact hk
      · refine ⟨k, ?_⟩
        simp [trimZeroB, h, hd]
        exact hk
    | cons r rs =>
      refine ⟨k, ?_⟩
      rw [h] at hk
      simp [trimZeroB, h]
      exact hk

theorem takeWhile_append_run {q : Nat → Bool} (c : Nat) (rest : List Nat)
    (hc : q c = false) :
    ∀ ds, (∀ b ∈ ds, q b = true) →
      (ds ++ c :: rest).takeWhile q = ds ∧ (ds ++ c :: rest).dropWhile q = c :: rest := by
  intro ds
  induction ds with
  | nil =>
    intro _
    simp [List.takeWhile, List.dropWhile, hc]
  | cons d ds ih =>
    intro hall
    have hd : q d = true := hall d (by simp)
    have hrest := ih (fun b hb => hall b (by simp [hb]))
    simp [List.takeWhile, List.dropWhile, hd, hrest.1, hrest.2]

/-! Helper lemmas: the fraction and offset pieces of the RFC3339 text. -/

theorem readFrac_not46 (b : Nat) (bs : List Nat) (hb : b ≠ 46) :
    readFrac (b :: bs) = (0, b :: bs) := by
  cases bs with
  | nil => simp [readFrac]
  | cons c rest => simp [readFrac, hb]

theorem offsetBytes_shape (off : Int) :
    ∃ b rest, offsetBytes off = b :: rest ∧ isDigitB b = false ∧ b ≠ 46 := by
  unfold offsetBytes
  by_cases h0 : off = 0
  · exact ⟨90, [], by simp [h0], by decide, by decide⟩
  · rw [if_neg h0]
    by_cases hs : off < 0
    · exact ⟨45, _, by rw [if_pos hs], by decide, by decide⟩
    · exact ⟨43, _, by rw [if_neg hs], by decide, by decide⟩

theorem readFrac_fracBytes (nanos : Nat) (h9 : nanos < 10 ^ 9) (off : Int) :
    readFrac (fracBytes nanos ++ offsetBytes off) = (nanos, offsetBytes off) := by
  obtain ⟨b0, rest0, hob, hdig, hne46⟩ := offsetBytes_shape off
  by_cases h0 : nanos = 0
  · subst h0
    simp only [fracBytes, if_pos rfl, List.nil_append]
    rw [hob]
    exact readFrac_not46 _ _ hne46
  · obtain ⟨k, hk⟩ := trimZeroB_spec (padDigits 9 nanos)
    have hlen : (trimZeroB (padDigits 9 nanos)).length + k = 9 := by
      have hl := congrArg List.length hk
      simp only [List.length_append, List.length_replicate, padDigits_length] at hl
      omega
    have hdigs : ∀ b ∈ trimZeroB (padDigits 9 nanos), isDigitB b = true := by
      intro b hb
      have hmem : b ∈ padDigits 9 nanos := by
        rw [hk]; exact List.mem_append_left _ hb
      have hbd := mem_padDigits_digit h9 b hmem
      simp only [isDigitB, Bool.and_eq_true, decide_eq_true_eq]
      omega
    have hval : digitsVal (trimZeroB (padDigits 9 nanos)) * 10 ^ k = nanos := by
      have h1 := digitsVal_padDigits h9
      rw [hk, digitsVal_append, digitsVal_replicate48, List.length_replicate] at h1
      omega
    have hne : trimZeroB (padDigits 9 nanos) ≠ [] := by
      intro h
      rw [h] at hval
      simp [digitsVal] at hval
      exact h0 hval.symm
    obtain ⟨d, ds', hcons⟩ := List.exists_cons_of_ne_nil hne
    have hdd : isDigitB d = true := hdigs d (by rw [hcons]; simp)
    have hrun := takeWhile_append_run b0 rest0 hdig (trimZeroB (padDigits 9 nanos)) hdigs
    rw [hcons] at hrun hval hlen
    simp only [List.cons_append] at hrun
    simp only [fracBytes, if_neg h0]
    rw [hob, hcons]
    simp only [List.cons_append]
    simp only [readFrac]
    rw [if_pos (show True ∧ isDigitB d = true from ⟨trivial, hdd⟩)]
    rw [hrun.1, hrun.2]
    have hle : (d :: ds').length ≤ 9 := by omega
    rw [List.take_of_length_le hle]
    have hkk : 9 - (d :: ds').length = k := by omega
    rw [hkk, hval]

theorem padDigits_two (x : Nat) : padDigits 2 x = [digitB (x / 10), digitB (x % 10)] := by
  norm_num [padDigits]

theorem readOffset_offsetBytes (off : Int) (hb : off.natAbs < 1440) :
    readOffset (offsetBytes off) = some off := by
  by_cases h0 : off = 0
  · subst h0
    rfl
  · have hh23 : off.natAbs / 60 ≤ 23 := by omega
    have hm59 : off.natAbs % 60 ≤ 59 := by omega
    have hd1 : off.natAbs / 60 / 10 < 10 := by omega
    have hd2 : off.natAbs / 60 % 10 < 10 := by omega
    have hd3 : off.natAbs % 60 / 10 < 10 := by omega
    have hd4 : off.natAbs % 60 % 10 < 10 := by omega
    unfold offsetBytes
    rw [if_neg h0, padDigits_two, padDigits_two]
    by_cases hs : off < 0
    · rw [if_pos hs]
      simp only [List.cons_append, List.nil_append]
      rw [readOffset]
      rw [if_neg (by simp)]
      simp only [isDigitB_digitB hd1, isDigitB_digitB hd2, isDigitB_digitB hd3,
        isDigitB_digitB hd4, digitB_sub48]
      rw [if_pos (by norm_num)]
      rw [if_pos (by constructor <;> omega)]
      simp only [if_true]
      congr 1
      omega
    · rw [if_neg hs]
      simp only [List.cons_append, List.nil_append]
      rw [readOffset]
      rw [if_neg (by simp)]
      simp only [isDigitB_digitB hd1, isDigitB_digitB hd2, isDigitB_digitB hd3,
        isDigitB_digitB hd4, digitB_sub48]
      rw [if_pos (by norm_num)]
      rw [if_pos (by constructor <;> omega)]
      rw [if_neg (show ¬((43 : Nat) = 45) by omega)]
      congr 1
      omega

/-- Round trip of the Go time text form: marshalling a valid time and
parsing the bytes back recovers the same time. -/
theorem goTime_text_roundtrip (t : GoTime) (hv : t.Valid) :
    ∃ bs, goTimeMarshalText t = some bs ∧ goTimeUnmarshalText bs = some t := by
  obtain ⟨h1, h2, h3, h4, h5, h6, h7, h8, h9, h10⟩ := hv
  have hy : t.year < 10 ^ 4 := by norm_num; omega
  have hmo : t.month < 10 ^ 2 := by norm_num; omega
  have hd : t.day < 10 ^ 2 := by
    have : daysIn t.year t.month ≤ 31 := by
      unfold daysIn
      split <;> [split <;> omega; split <;> omega]
    norm_num
    omega
  have hh : t.hour < 10 ^ 2 := by norm_num; omega
  have hmi : t.minute < 10 ^ 2 := by norm_num; omega
  have hs : t.second < 10 ^ 2 := by norm_num; omega
  have hn9 : t.nanos < 10 ^ 9 := by norm_num; omega
  have hm : goTimeMarshalText t = some
      (padDigits 4 t.year ++ 45 :: padDigits 2 t.month ++ 45 :: padDigits 2 t.day ++
       84 :: padDigits 2 t.hour ++ 58 :: padDigits 2 t.minute ++ 58 :: padDigits 2 t.second ++
       fracBytes t.nanos ++ offsetBytes t.offMin) := by
    unfold goTimeMarshalText
    rw [if_neg (by omega)]
  refine ⟨_, hm, ?_⟩
  · simp only [goTimeUnmarshalText, List.cons_append, List.append_assoc,
      readFixed_pad hy, expectB_cons, readFixed_pad hmo, readFixed_pad hd,
      readFixed_pad hh, readFixed_pad hmi, readFixed_pad hs,
      readFrac_fracBytes t.nanos hn9 t.offMin, readOffset_offsetBytes t.offMin h10]
    rw [if_pos (by exact ⟨h2, h3, h4, h5, h6, h7, h8⟩)]

/-! Helper lemmas: the url-safe base64 codec round trip. -/

theorem b64InvChar_b64Char : ∀ s, s < 64 → b64InvChar (b64Char s) = some s := by decide

theorem b64Char_ne_pad : ∀ s, s < 64 → b64Char s ≠ '=' := by decide

theorem b64_decode_encode : ∀ bs : List Nat, (∀ b ∈ bs, b < 256) →
    b64DecodeChars (b64EncodeBytes bs) = some bs
  | [], _ => rfl
  | [b1], h => by
    have hb1 : b1 < 256 := h b1 (by simp)
    have e1 : b1 * 16 / 64 < 64 := by omega
    have e2 : b1 * 16 % 64 < 64 := by omega
    simp only [b64EncodeBytes, b64DecodeChars,
      b64InvChar_b64Char _ e1, b64InvChar_b64Char _ e2]
    rw [if_pos trivial, if_pos (And.intro trivial trivial)]
    have hx : b1 * 16 / 64 * 4 + b1 * 16 % 64 / 16 = b1 := by omega
    rw [hx]
  | [b1, b2], h => by
    have hb1 : b1 < 256 := h b1 (by simp)
    have hb2 : b2 < 256 := h b2 (by simp)
    have e1 : (b1 * 1024 + b2 * 4) / 4096 < 64 := by omega
    have e2 : (b1 * 1024 + b2 * 4) / 64 % 64 < 64 := by omega
    have e3 : (b1 * 1024 + b2 * 4) % 64 < 64 := by omega
    simp only [b64EncodeBytes, b64DecodeChars,
      b64InvChar_b64Char _ e1, b64InvChar_b64Char _ e2, b64InvChar_b64Char _ e3]
    rw [if_neg (b64Char_ne_pad _ e3), if_pos trivial, if_pos trivial]
    have hx1 : (b1 * 1024 + b2 * 4) / 4096 * 4 + (b1 * 1024 + b2 * 4) / 64 % 64 / 16 = b1 := by
      omega
    have hx2 : (b1 * 1024 + b2 * 4) / 64 % 64 % 16 * 16 + (b1 * 1024 + b2 * 4) % 64 / 4 = b2 := by
      omega
    rw [hx1, hx2]
  | b1 :: b2 :: b3 :: rest, h => by
    have hb1 : b1 < 256 := h b1 (by simp)
    have hb2 : b2 < 256 := h b2 (by simp)
    have hb3 : b3 < 256 := h b3 (by simp)
    have ih := b64_decode_encode rest (fun b hb => h b (by simp [hb]))
    have e1 : (b1 * 65536 + b2 * 256 + b3) / 262144 < 64 := by omega
    have e2 : (b1 * 65536 + b2 * 256 + b3) / 4096 % 64 < 64 := by omega
    have e3 : (b1 * 65536 + b2 * 256 + b3) / 64 % 64 < 64 := by omega
    have e4 : (b1 * 65536 + b2 * 256 + b3) % 64 < 64 := by omega
    simp only [b64EncodeBytes, b64DecodeChars,
      b64InvChar_b64Char _ e1, b64InvChar_b64Char _ e2, b64InvChar_b64Char _ e3,
      b64InvChar_b64Char _ e4]
    rw [if_neg (b64Char_ne_pad _ e3), if_neg (b64Char_ne_pad _ e4), ih]
    have hx1 : (b1 * 65536 + b2 * 256 + b3) / 262144 * 4 +
        (b1 * 65536 + b2 * 256 + b3) / 4096 % 64 / 16 = b1 := by omega
    have hx2 : (b1 * 65536 + b2 * 256 + b3) / 4096 % 64 % 16 * 16 +
        (b1 * 65536 + b2 * 256 + b3) / 64 % 64 / 4 = b2 := by omega
    have hx3 : (b1 * 65536 + b2 * 256 + b3) / 64 % 64 % 4 * 64 +
        (b1 * 65536 + b2 * 256 + b3) % 64 = b3 := by omega
    simp only [Option.map_some, hx1, hx2, hx3]
    rfl

theorem mem_fracBytes_lt {nanos : Nat} (h9 : nanos < 10 ^ 9) :
    ∀ b ∈ fracBytes nanos, b < 256 := by
  intro b hb
  unfold fracBytes at hb
  by_cases h0 : nanos = 0
  · simp [h0] at hb
  · rw [if_neg h0] at hb
    rcases List.mem_cons.mp hb with hb | hb
    · omega
    · obtain ⟨k, hk⟩ := trimZeroB_spec (padDigits 9 nanos)
      have hmem : b ∈ padDigits 9 nanos := by
        rw [hk]; exact List.mem_append_left _ hb
      have := mem_padDigits_digit h9 b hmem
      omega

theorem mem_offsetBytes_lt {off : Int} (hb : off.natAbs < 1440) :
    ∀ b ∈ offsetBytes off, b < 256 := by
  intro b hmem
  unfold offsetBytes at hmem
  by_cases h0 : off = 0
  · simp [h0] at hmem
    omega
  · rw [if_neg h0] at hmem
    have hh : off.natAbs / 60 < 10 ^ 2 := by norm_num; omega
    have hm : off.natAbs % 60 < 10 ^ 2 := by norm_num; omega
    rcases List.mem_cons.mp hmem with hc | hc
    · split at hc <;> omega
    · rcases List.mem_append.mp hc with hc | hc
      · have := mem_padDigits_digit hh b hc
        omega
      · rcases List.mem_cons.mp hc with hc | hc
        · omega
        · have := mem_padDigits_digit hm b hc
          omega

theorem marshal_mem_lt (t : GoTime) (hv : t.Valid) {bs : List Nat}
    (hm : goTimeMarshalText t = some bs) : ∀ b ∈ bs, b < 256 := by
  obtain ⟨h1, h2, h3, h4, h5, h6, h7, h8, h9, h10⟩ := hv
  have hy : t.year < 10 ^ 4 := by norm_num; omega
  have hmo : t.month < 10 ^ 2 := by norm_num; omega
  have hd : t.day < 10 ^ 2 := by
    have : daysIn t.year t.month ≤ 31 := by
      unfold daysIn
      split <;> [split <;> omega; split <;> omega]
    norm_num
    omega
  have hh : t.hour < 10 ^ 2 := by norm_num; omega
  have hmi : t.minute < 10 ^ 2 := by norm_num; omega
  have hs : t.second < 10 ^ 2 := by norm_num; omega
  have hn9 : t.nanos < 10 ^ 9 := by norm_num; omega
  unfold goTimeMarshalText at hm
  rw [if_neg (by omega)] at hm
  rw [← Option.some_inj.mp hm]
  simp only [List.forall_mem_append, List.forall_mem_cons]
  have dig : ∀ w n, n < 10 ^ w → ∀ x ∈ padDigits w n, x < 256 := by
    intro w n hn x hx
    have := mem_padDigits_digit hn x hx
    omega
  exact ⟨⟨⟨⟨⟨⟨⟨dig 4 t.year hy, by omega, dig 2 t.month hmo⟩,
    by omega, dig 2 t.day hd⟩, by omega, dig 2 t.hour hh⟩,
    by omega, dig 2 t.minute hmi⟩, by omega, dig 2 t.second hs⟩,
    mem_fracBytes_lt hn9⟩, mem_offsetBytes_lt h10⟩

/-! Claim theorems. -/

/-- C9: for every timestamp representable in RFC3339-nanosecond text form,
the page token produced by encoding it (base64url of the timestamp text)
decodes back to the same timestamp: decode of encode is the identity. -/
theorem c9_page_token_roundtrip (t : GoTime) (hv : t.Valid) :
    ∃ tok, encodePageToken t = some tok ∧ decodePageToken tok = some t := by
  obtain ⟨bs, hm, hu⟩ := goTime_text_roundtrip t hv
  refine ⟨b64EncodeToString bs, ?_, ?_⟩
  · unfold encodePageToken
    rw [hm]
    rfl
  · unfold decodePageToken b64DecodeString b64EncodeToString
    have hdata : (String.mk (b64EncodeBytes bs)).data = b64EncodeBytes bs := rfl
    rw [hdata, b64_decode_encode bs (marshal_mem_lt t hv hm)]
    exact hu

/-- Witness for c9_page_token_roundtrip at a concrete timestamp. -/
theorem c9_page_token_roundtrip_witness :
    (sampleTime 1).Valid ∧
      ∃ tok, encodePageToken (sampleTime 1) = some tok ∧
        decodePageToken tok = some (sampleTime 1) :=
  ⟨by decide, c9_page_token_roundtrip (sampleTime 1) (by decide)⟩

/-- C4: both transition predicates reject every self loop, accept exactly
the declared edges and reject every other ordered pair; RETIRED has no
outgoing edge. -/
theorem c4_transition_tables_exact :
    (∀ s : DriverStatus, IsValidDriverStatusTransition s s = false) ∧
    (∀ s : VehicleStatus, IsValidStatusTransition s s = false) ∧
    (∀ a b : DriverStatus,
      IsValidDriverStatusTransition a b = true ↔ (a, b) ∈ declaredDriverEdges) ∧
    (∀ a b : VehicleStatus,
      IsValidStatusTransition a b = true ↔ (a, b) ∈ declaredVehicleEdges) ∧
    (∀ b : VehicleStatus, IsValidStatusTransition .RETIRED b = false) := by
  decide

/-- C2 counterexample: with page size 2 and three returned rows with
distinct created_at values, the next token is the encoded created_at of the
dropped third row, which differs from the encoded created_at of the new
last row of the truncated page, refuting the claim as stated. -/
theorem c2_token_not_new_last_row :
    assemblePage 2 [sampleProto 3 3, sampleProto 2 2, sampleProto 1 1] =
      .ok ([sampleProto 3 3, sampleProto 2 2], (encodePageToken (sampleTime 1)).getD "") ∧
    (encodePageToken (sampleTime 1)).getD "" ≠ (encodePageToken (sampleTime 2)).getD "" := by
  decide

/-- C2 amended: when the backing query returns pageSize+1 rows, the extra
row is dropped from the page and nextToken is the base64url encoding of the
created_at of the dropped (last scanned) row; when the query returns at
most pageSize rows, nextToken is the empty string. -/
theorem c2_token_encodes_dropped_row (pageSize : Nat) (vehicles : List ProtoVehicle) :
    (∀ last, vehicles.length = pageSize + 1 → vehicles.getLast? = some last →
      last.created_at.year ≤ 9999 →
      ∃ bs, goTimeMarshalText last.created_at = some bs ∧
        assemblePage pageSize vehicles = .ok (vehicles.take pageSize, b64EncodeToString bs)) ∧
    (vehicles.length ≤ pageSize → assemblePage pageSize vehicles = .ok (vehicles, "")) := by
  constructor
  · intro last hlen hlast hy
    have hbs : ∃ bs, goTimeMarshalText last.created_at = some bs := by
      unfold goTimeMarshalText
      rw [if_neg (by omega)]
      exact ⟨_, rfl⟩
    obtain ⟨bs, hbs⟩ := hbs
    refine ⟨bs, hbs, ?_⟩
    unfold assemblePage
    rw [if_pos (by omega), hlast]
    simp only [hbs]
  · intro hle
    unfold assemblePage
    rw [if_neg (by omega)]

/-- Witness for c2_token_encodes_dropped_row at concrete pages. -/
theorem c2_token_encodes_dropped_row_witness :
    (∃ bs, goTimeMarshalText (sampleProto 1 1).created_at = some bs ∧
      assemblePage 2 [sampleProto 3 3, sampleProto 2 2, sampleProto 1 1] =
        .ok ([sampleProto 3 3, sampleProto 2 2], b64EncodeToString bs)) ∧
    assemblePage 2 [sampleProto 3 3] = .ok ([sampleProto 3 3], "") := by
  constructor
  · exact (c2_token_encodes_dropped_row 2
      [sampleProto 3 3, sampleProto 2 2, sampleProto 1 1]).1
      (sampleProto 1 1) (by decide) (by decide) (by decide)
  · exact (c2_token_encodes_dropped_row 2 [sampleProto 3 3]).2 (by decide)

/-- C1: the documented scenario (3 stored vehicles, page size 2) run on the
model of the code: the first call returns the two newest vehicles and a
non-empty token, but the second call with that token returns the same two
vehicles again with an empty token; the oldest vehicle is never returned,
so iterated paging does not return all rows exactly once as claimed. -/
theorem c1_pagination_loses_rows :
    (serviceListVehicles sampleStore3 (sampleListReq 2 "")).map
        (fun r => (r.vehicles, r.next_page_token)) =
      .ok ([sampleProto 3 3, sampleProto 2 2], (encodePageToken (sampleTime 1)).getD "") ∧
    (serviceListVehicles sampleStore3
        (sampleListReq 2 ((encodePageToken (sampleTime 1)).getD ""))).map
        (fun r => (r.vehicles, r.next_page_token)) =
      .ok ([sampleProto 3 3, sampleProto 2 2], "") ∧
    (encodePageToken (sampleTime 1)).getD "" ≠ "" := by
  decide

/-- C3 counterexample: a non-empty page token that is not valid base64url
makes ListVehicles fail with an Internal status, not InvalidArgument,
refuting the claim as stated. -/
theorem c3_bad_token_internal_not_invalid_argument :
    serviceListVehicles emptyStore (sampleListReq 2 "!!!!") =
      .error ⟨.Internal, "failed to list vehicles"⟩ ∧
    Code.Internal ≠ Code.InvalidArgument := by
  decide

/-- C3 amended: for every store state and request whose non-empty page
token either fails base64url decoding or decodes to bytes that do not parse
as an RFC3339 timestamp, ListVehicles fails with an Internal-class error
(the store wraps the failure in a plain error and the service maps every
store error to Internal); the call returns an error rather than crashing. -/
theorem c3_bad_token_yields_internal (st : StoreState) (req : ListVehiclesRequest)
    (h1 : req.page_token ≠ "")
    (h2 : b64DecodeString req.page_token = none ∨
      ∃ bs, b64DecodeString req.page_token = some bs ∧ goTimeUnmarshalText bs = none) :
    serviceListVehicles st req = .error ⟨.Internal, "failed to list vehicles"⟩ := by
  have hd : ∃ msg, decodeCursor req.page_token = .error (.Other msg) := by
    rcases h2 with h2 | ⟨bs, hbs, hparse⟩
    · exact ⟨"invalid page token", by unfold decodeCursor; rw [if_neg h1, h2]⟩
    · refine ⟨"invalid page token format", ?_⟩
      unfold decodeCursor
      rw [if_neg h1, hbs]
      simp only [hparse]
  obtain ⟨msg, hd⟩ := hd
  unfold serviceListVehicles storeListVehicles
  simp only [hd]

/-- Witness for c3_bad_token_yields_internal at a concrete bad token. -/
theorem c3_bad_token_yields_internal_witness :
    (("AAAA" : String) ≠ "") ∧
    (∃ bs, b64DecodeString "AAAA" = some bs ∧ goTimeUnmarshalText bs = none) ∧
    serviceListVehicles emptyStore (sampleListReq 2 "AAAA") =
      .error ⟨.Internal, "failed to list vehicles"⟩ := by
  refine ⟨by decide, ⟨[0, 0, 0], by decide, by decide⟩, ?_⟩
  exact c3_bad_token_yields_internal emptyStore (sampleListReq 2 "AAAA")
    (by decide) (Or.inr ⟨[0, 0, 0], by decide, by decide⟩)


/-- C5: an UpdateVehicle whose field mask is exactly the single path make
changes only the make column (to the supplied value, or empty when the
pointer is nil) and updated_at of the targeted row, for every store state
and every update payload; all other columns, all other rows and the
vehicle_types table keep their pre-update values exactly. -/
theorem c5_mask_make_isolation (st : StoreState) (externalID : UUID)
    (updates : VehicleUpdateFields) (now : GoTime) :
    (storeUpdateVehicle st externalID updates (some ["make"]) now).1.vehicles =
      st.vehicles.map (fun r =>
        if r.external_id = externalID then
          { r with make := updates.Make.getD "", updated_at := now }
        else r) ∧
    (storeUpdateVehicle st externalID updates (some ["make"]) now).1.vehicle_types =
      st.vehicle_types := by
  have hp : computePatch updates (some ["make"]) =
      { vehicle_type_id := none, license_plate := none,
        make := some (updates.Make.getD ""), model := none, year := none,
        color := none, seating_capacity := none, fuel_type := none,
        engine_number := none, chassis_number := none,
        registration_date := none, insurance_expiry := none } := by
    unfold computePatch maskFlag
    norm_num [List.contains]
    refine ⟨?_, ?_, ?_, ?_, ?_, ?_, ?_, ?_, ?_, ?_, ?_⟩ <;>
      (intro h; exact absurd h (by decide))
  have ha : ∀ r : VehicleRow,
      applyPatch
        { vehicle_type_id := none, license_plate := none,
          make := some (updates.Make.getD ""), model := none, year := none,
          color := none, seating_capacity := none, fuel_type := none,
          engine_number := none, chassis_number := none,
          registration_date := none, insurance_expiry := none } now r =
      { r with make := updates.Make.getD "", updated_at := now } := fun r => rfl
  unfold storeUpdateVehicle
  simp only [hp]
  rw [if_neg (by simp)]
  by_cases h0 : List.countP (fun r => decide (r.external_id = externalID)) st.vehicles = 0
  · rw [if_pos h0]
    refine ⟨?_, rfl⟩
    have hnone : ∀ r ∈ st.vehicles, ¬(r.external_id = externalID) := by
      intro r hr
      have hz := List.countP_eq_zero.mp h0 r hr
      simpa using hz
    have hid : ∀ r ∈ st.vehicles,
        (if r.external_id = externalID then
          { r with make := updates.Make.getD "", updated_at := now } else r) = id r := by
      intro r hr
      rw [if_neg (hnone r hr)]
      rfl
    rw [List.map_congr_left hid, List.map_id]
  · rw [if_neg h0]
    have hmap : List.map (fun r =>
        if r.external_id = externalID then
          applyPatch
            { vehicle_type_id := none, license_plate := none,
              make := some (updates.Make.getD ""), model := none, year := none,
              color := none, seating_capacity := none, fuel_type := none,
              engine_number := none, chassis_number := none,
              registration_date := none, insurance_expiry := none } now r
        else r) st.vehicles =
        List.map (fun r =>
          if r.external_id = externalID then
            { r with make := updates.Make.getD "", updated_at := now }
          else r) st.vehicles := by
      apply List.map_congr_left
      intro r hr
      by_cases hid : r.external_id = externalID
      · rw [if_pos hid, if_pos hid, ha]
      · rw [if_neg hid, if_neg hid]
    split <;> exact ⟨hmap, rfl⟩


/-- C10: a ListVehicles call whose status filter is explicitly set to
STATUS_UNSPECIFIED returns an empty page on every store whose rows carry
one of the four real statuses: the filter is passed through as the
non-empty string STATUS_UNSPECIFIED, so the composed predicate matches no
stored vehicle; an explicitly-unspecified filter is not an absent filter. -/
theorem c10_unspecified_filter_empty_page (st : StoreState) (req : ListVehiclesRequest)
    (hf : req.status_filter = some .STATUS_UNSPECIFIED)
    (htok : req.page_token = "")
    (hw : ∀ r ∈ st.vehicles, r.status = "ACTIVE" ∨ r.status = "ASSIGNED" ∨
      r.status = "MAINTENANCE" ∨ r.status = "RETIRED") :
    serviceListVehicles st req = .ok ⟨[], "", 0⟩ := by
  have hfilter : ∀ typeStr makeF,
      st.vehicles.filter (rowMatches "STATUS_UNSPECIFIED" typeStr makeF none) = [] := by
    intro typeStr makeF
    rw [List.filter_eq_nil_iff]
    intro r hr
    unfold rowMatches
    rcases hw r hr with h | h | h | h <;> simp [h]
  unfold serviceListVehicles storeListVehicles queryRows
  rw [hf, htok]
  have hdc : decodeCursor "" = .ok none := rfl
  simp only [hdc, VehicleStatus.str, hfilter, sortDesc, List.foldr_nil,
    List.filterMap_nil, List.take_nil, scanRows, assemblePage, List.length_nil,
    Nat.not_lt_zero, if_false, Nat.cast_zero]


theorem ofString_eq_str {s : String} {v : VehicleStatus}
    (h : VehicleStatus.ofString s = some v) : s = v.str := by
  unfold VehicleStatus.ofString at h
  split_ifs at h <;> simp only [Option.some.injEq] at h <;> subst h <;>
    simp_all [VehicleStatus.str]

theorem str_retired_iff (v : VehicleStatus) : v.str = "RETIRED" ↔ v = .RETIRED := by
  cases v <;> simp [VehicleStatus.str]

theorem str_assigned_iff (v : VehicleStatus) : v.str = "ASSIGNED" ↔ v = .ASSIGNED := by
  cases v <;> simp [VehicleStatus.str]

theorem scanVehicleRow_ok_inv {tn : String} {r : VehicleRow} {pv : ProtoVehicle}
    (h : scanVehicleRow tn r = some pv) :
    VehicleStatus.ofString r.status = some pv.status ∧
    (FuelType.ofString r.fuel_type).isSome = true ∧ pv.id = r.external_id := by
  unfold scanVehicleRow at h
  cases hs : VehicleStatus.ofString r.status with
  | none => rw [hs] at h; exact absurd h (by simp)
  | some stv =>
    rw [hs] at h
    cases hft : FuelType.ofString r.fuel_type with
    | none => rw [hft] at h; exact absurd h (by simp)
    | some ft =>
      rw [hft] at h
      simp only [Option.some.injEq] at h
      subst h
      exact ⟨rfl, rfl, rfl⟩

theorem mem_joinedRows {st : StoreState} {tn : String} {r : VehicleRow}
    (h : (tn, r) ∈ joinedRows st) :
    r ∈ st.vehicles ∧ lookupTypeName st.vehicle_types r.vehicle_type_id = some tn := by
  unfold joinedRows at h
  rw [List.mem_filterMap] at h
  obtain ⟨a, ha, hmap⟩ := h
  cases hl : lookupTypeName st.vehicle_types a.vehicle_type_id with
  | none => rw [hl] at hmap; simp at hmap
  | some nm =>
    rw [hl] at hmap
    simp only [Option.map_some', Option.some.injEq, Prod.mk.injEq] at hmap
    obtain ⟨h1, h2⟩ := hmap
    subst h1
    subst h2
    exact ⟨ha, hl⟩

theorem joinedRows_intro {st : StoreState} {tn : String} {r : VehicleRow}
    (hmem : r ∈ st.vehicles)
    (hl : lookupTypeName st.vehicle_types r.vehicle_type_id = some tn) :
    (tn, r) ∈ joinedRows st := by
  unfold joinedRows
  rw [List.mem_filterMap]
  exact ⟨r, hmem, by rw [hl]; rfl⟩

theorem storeGetVehicleByID_ok_inv {st : StoreState} {vid : UUID} {pv : ProtoVehicle}
    (h : storeGetVehicleByID st vid = .ok pv) :
    ∃ tn r, (joinedRows st).find? (fun p => p.2.external_id = vid) = some (tn, r) ∧
      scanVehicleRow tn r = some pv := by
  unfold storeGetVehicleByID at h
  cases hf : (joinedRows st).find? (fun p => p.2.external_id = vid) with
  | none => rw [hf] at h; simp at h
  | some p =>
    obtain ⟨tn, r⟩ := p
    rw [hf] at h
    cases hs : scanVehicleRow tn r with
    | none =>
      simp only [hs] at h
      exact Except.noConfusion h
    | some pv2 =>
      simp only [hs, Except.ok.injEq] at h
      subst h
      exact ⟨tn, r, rfl, hs⟩

theorem storeGetVehicleByLicensePlate_ok_inv {st : StoreState} {plate : String}
    {pv : ProtoVehicle} (h : storeGetVehicleByLicensePlate st plate = .ok pv) :
    ∃ r ∈ st.vehicles, r.license_plate = plate := by
  unfold storeGetVehicleByLicensePlate at h
  cases hf : (joinedRows st).find? (fun p => p.2.license_plate = plate) with
  | none => rw [hf] at h; simp at h
  | some p =>
    obtain ⟨tn, r⟩ := p
    have hpr := List.find?_some hf
    simp only [decide_eq_true_eq] at hpr
    have hmem := (mem_joinedRows (List.mem_of_find?_eq_some hf)).1
    exact ⟨r, hmem, hpr⟩


theorem retireRow_external_id (vid : UUID) (now : GoTime) (r : VehicleRow) :
    (retireRow vid now r).external_id = r.external_id := by
  unfold retireRow
  split <;> rfl

theorem retireRow_vehicle_type_id (vid : UUID) (now : GoTime) (r : VehicleRow) :
    (retireRow vid now r).vehicle_type_id = r.vehicle_type_id := by
  unfold retireRow
  split <;> rfl

theorem retireRow_fuel_type (vid : UUID) (now : GoTime) (r : VehicleRow) :
    (retireRow vid now r).fuel_type = r.fuel_type := by
  unfold retireRow
  split <;> rfl

/-- C7: deleting a vehicle whose current status is ASSIGNED fails with a
FailedPrecondition error (a class distinct from InvalidArgument) and the
store state is returned unchanged, the guard firing before any write. -/
theorem c7_delete_assigned_failed_precondition (st : StoreState) (vid : UUID)
    (pv : ProtoVehicle) (now : GoTime)
    (hget : storeGetVehicleByID st vid = .ok pv)
    (ha : pv.status = .ASSIGNED) :
    serviceDeleteVehicle st vid now =
      (st, .error ⟨.FailedPrecondition,
        "cannot delete assigned vehicle. Unassign vehicle first"⟩) := by
  unfold serviceDeleteVehicle
  simp only [hget]
  rw [if_pos ha]

/-- C8: creating a vehicle whose license plate equals that of a stored
vehicle fails with AlreadyExists and leaves the store unchanged; moreover
the storage layer itself classifies the uniqueness violation as the
duplicate-entry domain error rather than an opaque storage error. -/
theorem c8_duplicate_plate_already_exists (st : StoreState) (v : VehicleInput)
    (internalID : Nat) (externalID : UUID) (now : GoTime)
    (tr : VehicleTypeRow) (a : ProtoVehicle)
    (htype : storeGetVehicleTypeByID st v.vehicle_type_id = .ok tr)
    (hplate : storeGetVehicleByLicensePlate st v.license_plate = .ok a) :
    serviceCreateVehicle st v internalID externalID now =
      (st, .error ⟨.AlreadyExists, "vehicle with license plate already exists"⟩) ∧
    storeCreateVehicle st internalID externalID (toVehicleData v) now =
      (st, some .DuplicateEntry) := by
  obtain ⟨r, hmem, hrplate⟩ := storeGetVehicleByLicensePlate_ok_inv hplate
  constructor
  · unfold serviceCreateVehicle
    simp only [htype, hplate]
  · have hany : st.vehicles.any (fun r2 =>
        decide (r2.license_plate = (toVehicleData v).LicensePlate ∨
          r2.external_id = externalID ∨ r2.internal_id = internalID)) = true := by
      rw [List.any_eq_true]
      refine ⟨r, hmem, ?_⟩
      simp only [toVehicleData, decide_eq_true_eq]
      exact Or.inl hrplate
    unfold storeCreateVehicle
    rw [if_pos hany]


/-- C6: the first DeleteVehicle on a stored vehicle in a non-RETIRED,
non-ASSIGNED status succeeds and leaves every row with that id in status
RETIRED; a second DeleteVehicle on the same id returns NotFound, because
the conditional update guarded by status different from RETIRED then
affects zero rows. -/
theorem c6_soft_delete_idempotent (st : StoreState) (vid : UUID) (pv : ProtoVehicle)
    (now1 now2 : GoTime)
    (hget : storeGetVehicleByID st vid = .ok pv)
    (hna : pv.status ≠ .ASSIGNED) (hnr : pv.status ≠ .RETIRED)
    (hfuel : ∀ r ∈ st.vehicles, r.external_id = vid →
      (FuelType.ofString r.fuel_type).isSome = true) :
    ∃ st1, serviceDeleteVehicle st vid now1 = (st1, .ok ()) ∧
      (∀ r ∈ st1.vehicles, r.external_id = vid → r.status = "RETIRED") ∧
      (serviceDeleteVehicle st1 vid now2).2 =
        .error ⟨.NotFound, "vehicle not found"⟩ := by
  obtain ⟨tn0, r0, hf0, hs0⟩ := storeGetVehicleByID_ok_inv hget
  have hjmem := mem_joinedRows (List.mem_of_find?_eq_some hf0)
  have hpred := List.find?_some hf0
  simp only [decide_eq_true_eq] at hpred
  obtain ⟨hscan_st, hscan_fuel, hscan_id⟩ := scanVehicleRow_ok_inv hs0
  have hr0status : r0.status = pv.status.str := ofString_eq_str hscan_st
  have hr0ne : r0.status ≠ "RETIRED" := by
    rw [hr0status]
    intro hc
    exact hnr ((str_retired_iff pv.status).mp hc)
  have hcount : List.countP
      (fun r => decide (r.external_id = vid ∧ r.status ≠ "RETIRED")) st.vehicles ≠ 0 := by
    have hpos : 0 < List.countP
        (fun r => decide (r.external_id = vid ∧ r.status ≠ "RETIRED")) st.vehicles :=
      List.countP_pos_iff.mpr ⟨r0, hjmem.1, by simp [hpred, hr0ne]⟩
    omega
  have hdel : storeDeleteVehicle st vid now1 =
      ({ st with vehicles := st.vehicles.map (retireRow vid now1) }, none) := by
    unfold storeDeleteVehicle
    rw [if_neg hcount]
  have hdelsvc : serviceDeleteVehicle st vid now1 =
      ({ st with vehicles := st.vehicles.map (retireRow vid now1) }, .ok ()) := by
    unfold serviceDeleteVehicle
    simp only [hget]
    rw [if_neg hna]
    simp only [hdel]
  have hpost : ∀ r ∈ st.vehicles.map (retireRow vid now1),
      r.external_id = vid → r.status = "RETIRED" := by
    intro r hr hrid
    rw [List.mem_map] at hr
    obtain ⟨r1, hr1mem, hr1eq⟩ := hr
    subst hr1eq
    rw [retireRow_external_id] at hrid
    unfold retireRow
    by_cases hc : r1.external_id = vid ∧ r1.status ≠ "RETIRED"
    · rw [if_pos hc]
    · rw [if_neg hc]
      by_contra hne
      exact hc ⟨hrid, hne⟩
  refine ⟨_, hdelsvc, hpost, ?_⟩
  have hjoin1 : (tn0, retireRow vid now1 r0) ∈
      joinedRows { st with vehicles := st.vehicles.map (retireRow vid now1) } := by
    apply joinedRows_intro
    · exact List.mem_map_of_mem _ hjmem.1
    · rw [retireRow_vehicle_type_id]
      exact hjmem.2
  have hsome1 : ((joinedRows
      { st with vehicles := st.vehicles.map (retireRow vid now1) }).find?
        (fun p => p.2.external_id = vid)).isSome := by
    rw [List.find?_isSome]
    refine ⟨(tn0, retireRow vid now1 r0), hjoin1, ?_⟩
    simp [retireRow_external_id, hpred]
  obtain ⟨p1, hp1⟩ := Option.isSome_iff_exists.mp hsome1
  obtain ⟨tn1, r1⟩ := p1
  have hp1pred := List.find?_some hp1
  simp only [decide_eq_true_eq] at hp1pred
  have hp1mem := mem_joinedRows (List.mem_of_find?_eq_some hp1)
  have hr1status : r1.status = "RETIRED" := hpost r1 hp1mem.1 hp1pred
  obtain ⟨r1p, hr1pmem, hr1peq⟩ := List.mem_map.mp hp1mem.1
  have hr1pid : r1p.external_id = vid := by
    rw [← retireRow_external_id vid now1 r1p, hr1peq]
    exact hp1pred
  have hr1fuel : (FuelType.ofString r1.fuel_type).isSome = true := by
    rw [← hr1peq, retireRow_fuel_type]
    exact hfuel r1p hr1pmem hr1pid
  obtain ⟨ft1, hft1⟩ := Option.isSome_iff_exists.mp hr1fuel
  have hscan1 : scanVehicleRow tn1 r1 = some
      { id := r1.external_id
        vehicle_type_id := r1.vehicle_type_id
        vehicle_type_name := tn1
        license_plate := r1.license_plate
        make := r1.make
        model := r1.model
        year := r1.year
        color := r1.color
        seating_capacity := r1.seating_capacity
        fuel_type := ft1
        engine_number := r1.engine_number.getD ""
        chassis_number := r1.chassis_number.getD ""
        registration_date := r1.registration_date
        insurance_expiry := r1.insurance_expiry
        status := .RETIRED
        created_at := r1.created_at
        updated_at := r1.updated_at } := by
    unfold scanVehicleRow
    rw [hr1status]
    have hos : VehicleStatus.ofString "RETIRED" = some .RETIRED := by decide
    simp only [hos, hft1]
  have hget1 : storeGetVehicleByID
      { st with vehicles := st.vehicles.map (retireRow vid now1) } vid = .ok
      { id := r1.external_id
        vehicle_type_id := r1.vehicle_type_id
        vehicle_type_name := tn1
        license_plate := r1.license_plate
        make := r1.make
        model := r1.model
        year := r1.year
        color := r1.color
        seating_capacity := r1.seating_capacity
        fuel_type := ft1
        engine_number := r1.engine_number.getD ""
        chassis_number := r1.chassis_number.getD ""
        registration_date := r1.registration_date
        insurance_expiry := r1.insurance_expiry
        status := .RETIRED
        created_at := r1.created_at
        updated_at := r1.updated_at } := by
    unfold storeGetVehicleByID
    rw [hp1]
    simp only [hscan1]
  have hc0 : List.countP
      (fun r => decide (r.external_id = vid ∧ r.status ≠ "RETIRED"))
      (st.vehicles.map (retireRow vid now1)) = 0 := by
    rw [List.countP_eq_zero]
    intro r hr
    simp only [decide_eq_true_eq, not_and, not_not]
    intro hrid
    exact hpost r hr hrid
  have hdel1 : storeDeleteVehicle
      { st with vehicles := st.vehicles.map (retireRow vid now1) } vid now2 =
      ({ st with vehicles := st.vehicles.map (retireRow vid now1) },
        some .VehicleNotFound) := by
    unfold storeDeleteVehicle
    rw [if_pos hc0]
  unfold serviceDeleteVehicle
  simp only [hget1]
  rw [if_neg (by decide)]
  simp only [hdel1]


/-- Witness for c6_soft_delete_idempotent on a one-vehicle store. -/
theorem c6_soft_delete_idempotent_witness :
    storeGetVehicleByID sampleStore1 1 = .ok (sampleProto 1 1) ∧
    ∃ st1, serviceDeleteVehicle sampleStore1 1 (sampleTime 5) = (st1, .ok ()) ∧
      (∀ r ∈ st1.vehicles, r.external_id = 1 → r.status = "RETIRED") ∧
      (serviceDeleteVehicle st1 1 (sampleTime 6)).2 =
        .error ⟨.NotFound, "vehicle not found"⟩ :=
  ⟨by decide, c6_soft_delete_idempotent sampleStore1 1 (sampleProto 1 1)
    (sampleTime 5) (sampleTime 6) (by decide) (by decide) (by decide) (by decide)⟩

/-- Witness for c7_delete_assigned_failed_precondition on an ASSIGNED
vehicle. -/
theorem c7_delete_assigned_failed_precondition_witness :
    storeGetVehicleByID sampleStoreAssigned 1 = .ok sampleProtoAssigned ∧
    serviceDeleteVehicle sampleStoreAssigned 1 (sampleTime 5) =
      (sampleStoreAssigned, .error ⟨.FailedPrecondition,
        "cannot delete assigned vehicle. Unassign vehicle first"⟩) :=
  ⟨by decide, c7_delete_assigned_failed_precondition sampleStoreAssigned 1
    sampleProtoAssigned (sampleTime 5) (by decide) (by decide)⟩

/-- Witness for c8_duplicate_plate_already_exists with a duplicate plate. -/
theorem c8_duplicate_plate_already_exists_witness :
    storeGetVehicleTypeByID sampleStore1 (sampleInput "1").vehicle_type_id =
      .ok sampleTypeRow ∧
    storeGetVehicleByLicensePlate sampleStore1 (sampleInput "1").license_plate =
      .ok (sampleProto 1 1) ∧
    serviceCreateVehicle sampleStore1 (sampleInput "1") 99 7 (sampleTime 5) =
      (sampleStore1, .error ⟨.AlreadyExists,
        "vehicle with license plate already exists"⟩) ∧
    storeCreateVehicle sampleStore1 99 7 (toVehicleData (sampleInput "1"))
        (sampleTime 5) =
      (sampleStore1, some .DuplicateEntry) := by
  have h := c8_duplicate_plate_already_exists sampleStore1 (sampleInput "1") 99 7
    (sampleTime 5) sampleTypeRow (sampleProto 1 1) (by decide) (by decide)
  exact ⟨by decide, by decide, h.1, h.2⟩

/-- Witness for c10_unspecified_filter_empty_page on a one-vehicle store. -/
theorem c10_unspecified_filter_empty_page_witness :
    serviceListVehicles sampleStore1 ⟨2, "", some .STATUS_UNSPECIFIED, none, none⟩ =
      .ok ⟨[], "", 0⟩ :=
  c10_unspecified_filter_empty_page sampleStore1
    ⟨2, "", some .STATUS_UNSPECIFIED, none, none⟩ rfl rfl (by decide)

end Bebabeba
